import Mathlib

set_option maxRecDepth 10000

/-!
Shallow embedding of the TinMan heartbeat pipeline
(`src/tinman/heartbeat.py`, `src/tinman/logger.py`, `src/tinman/config.py`).

Modelling conventions:
* Python strings are `String`; `str.strip()` is `String.trim`;
  the substring test `pat in s` is `hasSubstr s pat` (character-list infix).
* Python `int` durations produced by `round(time.time() - start, 2)` are
  modelled as explicit `Rat` inputs: each invocation outcome carries the
  already-rounded elapsed wall-clock value for the branch that consumes it.
* The filesystem is explicit state: the log file is an
  `Option (List String)` (`none` = file absent, otherwise its lines);
  general files are an association list from path to content plus a list
  of existing directories (`FS`).
* `json.dumps` / `json.loads` are external library calls; the logger model
  takes the serialized line as input, and `tail` takes the decoder as a
  function parameter (`json.dumps` of a result dict never contains a raw
  newline, so one logged result is exactly one line).
* The subprocess call in `_invoke_claude` is nondeterministic from the
  program's point of view; its outcome is the explicit `InvokeOutcome`
  input of `run_beat` (tool missing, a raised exception such as the
  120-second timeout, or completion with raw captured stdout/stderr).
-/

namespace Tinman

/-- Python slice `xs[-m:]` for a natural `m` (note `xs[-0:] = xs`). -/
def pySliceLast (m : Nat) (xs : List α) : List α :=
  if m = 0 then xs else xs.drop (xs.length - m)

/-- Python `str.strip()`: drop whitespace from both ends. -/
def pyStrip (s : String) : String :=
  ⟨((s.toList.dropWhile Char.isWhitespace).reverse.dropWhile Char.isWhitespace).reverse⟩

/-- `pat` occurs as a contiguous run inside the list (model of Python `in`). -/
def containsSublist (pat : List Char) : List Char → Bool
  | [] => pat.isEmpty
  | c :: rest => pat.isPrefixOf (c :: rest) || containsSublist pat rest

/-- Python substring containment `pat in s`. -/
def hasSubstr (s pat : String) : Bool :=
  containsSublist pat.toList s.toList

/-- The fields of `TinManConfig` (src/tinman/config.py) that the heartbeat
pipeline reads, with the dataclass defaults. -/
structure TinManConfig where
  notify_only : Bool := true
  max_actions_per_run : Int := 0
  require_confirmation : Bool := true
  log_heartbeats : Bool := true
  log_file : String := "~/.tinman/heartbeat.log"
  max_log_lines : Nat := 1000
  notify_stdout : Bool := true
  notify_c3poh : Bool := false
  c3poh_endpoint : String := ""
  heartbeat_md : String := "HEARTBEAT.md"
  deriving Repr, DecidableEq

/-- The result dict built by `run_beat` (keys in src/tinman/heartbeat.py:103). -/
structure Result where
  timestamp : String
  status : String
  output : String
  error : String
  duration_seconds : Rat
  deriving Repr, DecidableEq

/-! ## Filesystem state and path helpers -/

/-- Explicit filesystem state: existing directories and files (path ↦ content). -/
structure FS where
  dirs : List String
  files : List (String × String)
  deriving Repr, DecidableEq

/-- Content of the file at `p`, if it exists. -/
def lookupFile (fs : FS) (p : String) : Option String :=
  (fs.files.find? (fun kv => kv.1 == p)).map (fun kv => kv.2)

/-- `Path.mkdir(parents=True, exist_ok=True)`, abstracted to recording the
directory itself (ancestor creation is not observed by any claim). -/
def addDir (ds : List String) (d : String) : List String :=
  if ds.contains d then ds else ds ++ [d]

/-- Split a character list at every `/` (model of `str.split("/")`). -/
def splitSlash : List Char → List (List Char)
  | [] => [[]]
  | c :: rest =>
    let r := splitSlash rest
    if c = '/' then [] :: r
    else
      match r with
      | h :: t => (c :: h) :: t
      | [] => [[c]]

/-- Join character lists with a separator (model of `sep.join(xs)`). -/
def joinWith (sep : List Char) : List (List Char) → List Char
  | [] => []
  | [x] => x
  | x :: xs => x ++ sep ++ joinWith sep xs

/-- Python `sep.join(xs)` on strings. -/
def py_join (sep : String) (xs : List String) : String :=
  ⟨joinWith sep.toList (xs.map String.toList)⟩

/-- `os.path.expanduser` / `Path.expanduser` for the common `~` forms. -/
def expanduser (home p : String) : String :=
  if p = "~" then home
  else if ("~/".toList.isPrefixOf p.toList) then home ++ ⟨p.toList.drop 1⟩
  else p

/-- `Path(p).parent` rendered as a string. -/
def dirname (p : String) : String :=
  let parts := splitSlash p.toList
  if parts.length ≤ 1 then "."
  else if parts.dropLast = [[]] then "/"
  else ⟨joinWith ['/'] parts.dropLast⟩

/-- `p.is_absolute()` for POSIX paths. -/
def is_absolute (p : String) : Bool :=
  "/".toList.isPrefixOf p.toList

/-! ## Logger (src/tinman/logger.py) -/

/-- `HeartbeatLogger._rotate_if_needed`: trim to the last `max_log_lines`
lines when the line count exceeds the cap (`lines[-max_log_lines:]`). -/
def rotate_if_needed (max_log_lines : Nat) (lines : List String) : List String :=
  if lines.length > max_log_lines then pySliceLast max_log_lines lines else lines

/-- `HeartbeatLogger.log`: no-op when logging is disabled; otherwise append
the serialized result as one line (creating the file if absent) and rotate. -/
def logger_log (cfg : TinManConfig) (file : Option (List String)) (entry : String) :
    Option (List String) :=
  if cfg.log_heartbeats = false then file
  else some (rotate_if_needed cfg.max_log_lines (file.getD [] ++ [entry]))

/-- A sequence of `HeartbeatLogger.log` calls, oldest first. -/
def logger_logs (cfg : TinManConfig) (file : Option (List String))
    (entries : List String) : Option (List String) :=
  entries.foldl (logger_log cfg) file

/-- The body of the `tail` accumulation loop (logger.py:44-50): strip the
line, skip it if blank, append the decoded entry if decoding succeeds,
silently skip it otherwise. -/
def tail_step (decode : String → Option α) (entries : List α) (line : String) :
    List α :=
  let l := pyStrip line
  if l ≠ "" then
    match decode l with
    | some e => entries ++ [e]
    | none => entries
  else entries

/-- `HeartbeatLogger.tail`: slice the last `n` lines and run the accumulation
loop over them. `decode` stands for the external `json.loads`
(partiality = raising). Returns `[]` when the file does not exist. -/
def tail (decode : String → Option α) (n : Nat) (file : Option (List String)) :
    List α :=
  match file with
  | none => []
  | some lines => (pySliceLast n lines).foldl (tail_step decode) []

/-- `HeartbeatLogger.__init__`: records the (expanded) log path and creates
its parent directory, whether or not logging is enabled. -/
def HeartbeatLogger_init (home : String) (cfg : TinManConfig) (fs : FS) : FS :=
  { fs with dirs := addDir fs.dirs (dirname (expanduser home cfg.log_file)) }

/-! ## Heartbeat runner (src/tinman/heartbeat.py) -/

/-- `HeartbeatRunner.__init__`: stores the config and constructs the
`HeartbeatLogger`; the logger construction is its only filesystem effect. -/
def HeartbeatRunner_init (home : String) (cfg : TinManConfig) (fs : FS) : FS :=
  HeartbeatLogger_init home cfg fs

/-- The built-in `DEFAULT_HEARTBEAT_MD` template (heartbeat.py:25). -/
def DEFAULT_HEARTBEAT_MD : String :=
  "# TinMan Heartbeat Checklist\n\n<!-- TinMan runs this checklist on every heartbeat. -->\n<!-- Keep actions NOTIFY-ONLY unless you know what you\x27re doing. -->\n<!-- See docs/HEARTBEAT_GUIDE.md for safe customization tips. -->\n\nYou are running a scheduled heartbeat check for this Claude Code project.\n\n## Your job every heartbeat:\n\n1. **Recent activity**: Summarize anything that needs the user\x27s attention:\n   - Failed tool calls or errors from recent sessions\n   - Uncommitted changes or stale git branches\n   - Large files or directories created recently\n\n2. **System sanity**:\n   - Disk space on current volume (warn if < 5 GB free)\n   - Any runaway processes (high CPU/memory if detectable)\n\n3. **Project health** (if in a git repo):\n   - Uncommitted changes (git status --short)\n   - Unpushed commits (git log @\x7bu\x7d.. if upstream set)\n   - Failed CI (if .github/workflows present, note last known state)\n\n4. **Security sanity**:\n   - Any unexpected files in sensitive locations (~/.ssh, .env files)\n   - API keys in plain sight in recently modified files\n\n## Response format:\n\nIf nothing needs attention:\n  Reply with exactly: `HEARTBEAT_OK`\n\nIf something needs attention:\n  - Give 1-5 bullet summary of issues\n  - Recommend a next action for each\n  - Ask for confirmation before taking ANY irreversible step\n\n## Hard rules (do not override these):\n- Do NOT execute destructive commands (rm, drop, delete, format)\n- Do NOT exfiltrate secrets or API keys\n- Do NOT make git commits or pushes without explicit user confirmation\n- Do NOT install software without explicit user confirmation\n"

/-- The checklist path resolution at the start of `ensure_heartbeat_md`:
expand the user home, then absolutize against the current directory. -/
def resolve_heartbeat_path (home cwd : String) (cfg : TinManConfig) : String :=
  let p := expanduser home cfg.heartbeat_md
  if is_absolute p then p else cwd ++ "/" ++ p

/-- `HeartbeatRunner.ensure_heartbeat_md`: return the resolved path, writing
the default template (and creating parent directories) only when the file
does not exist. -/
def ensure_heartbeat_md (home cwd : String) (cfg : TinManConfig) (fs : FS) :
    String × FS :=
  let p := resolve_heartbeat_path home cwd cfg
  match lookupFile fs p with
  | some _ => (p, fs)
  | none =>
    (p, { dirs := addDir fs.dirs (dirname p),
          files := fs.files ++ [(p, DEFAULT_HEARTBEAT_MD)] })

/-- The checklist text `run_beat` reads after calling `ensure_heartbeat_md`. -/
def read_checklist (home cwd : String) (cfg : TinManConfig) (fs : FS) : String :=
  let pf := ensure_heartbeat_md home cwd cfg fs
  (lookupFile pf.2 pf.1).getD ""

/-- The advisory list built by `HeartbeatRunner._safety_prefix` (the `mode`
local variable). -/
def safety_mode (cfg : TinManConfig) : List String :=
  (if cfg.notify_only then
    ["NOTIFY-ONLY MODE: Do not execute any commands or take autonomous actions."]
   else []) ++
  (if cfg.max_actions_per_run = 0 then
    ["You may not run shell commands in this heartbeat."]
   else []) ++
  (if cfg.require_confirmation then
    ["If action is needed, describe it and ask for confirmation. Do not proceed."]
   else [])

/-- `HeartbeatRunner._safety_prefix`: empty when no advisory is active,
otherwise a header line followed by one bulleted line per advisory. -/
def safety_prefix (cfg : TinManConfig) : String :=
  if safety_mode cfg = [] then ""
  else
    "=== TinMan Safety Rules (enforced by config) ===\n" ++
      py_join "\n" ((safety_mode cfg).map (fun m => "- " ++ m))

/-- The prompt `_invoke_claude` passes to the external tool
(`f-string` at heartbeat.py:166). -/
def invoke_prompt (cfg : TinManConfig) (checklist : String) : String :=
  safety_prefix cfg ++ "\n\n---\n\n" ++ checklist

/-- What `_invoke_claude` returns on normal completion:
`(proc.stdout.strip(), proc.stderr.strip())`. -/
def invoke_claude_output (stdoutRaw stderrRaw : String) : String × String :=
  (pyStrip stdoutRaw, pyStrip stderrRaw)

/-- Outcome of the external tool invocation attempt inside the `try` block of
`run_beat`: the executable is missing (`FileNotFoundError`), some other
exception is raised (e.g. the 120-second `subprocess.TimeoutExpired`), or the
subprocess completes with raw captured stdout/stderr. Each outcome carries
the already-rounded elapsed wall-clock seconds observed on that path. -/
inductive InvokeOutcome where
  | notFound (elapsed : Rat)
  | fault (msg : String) (elapsed : Rat)
  | completed (stdoutRaw stderrRaw : String) (elapsed : Rat)
  deriving Repr, DecidableEq

/-- `HeartbeatRunner.run_beat`: one heartbeat cycle. Returns the result, the
filesystem after `ensure_heartbeat_md`, the list of results passed to
`Logger.log`, and the list of results passed to `_emit` (in call order). -/
def run_beat (home cwd : String) (cfg : TinManConfig) (ts : String) (fs : FS)
    (o : InvokeOutcome) : Result × FS × List Result × List Result :=
  let result0 : Result :=
    { timestamp := ts, status := "unknown", output := "", error := "",
      duration_seconds := 0 }
  let fs1 := (ensure_heartbeat_md home cwd cfg fs).2
  let checklist := read_checklist home cwd cfg fs
  if pyStrip checklist = "" then
    let r := { result0 with
      status := "skipped_empty",
      output := "HEARTBEAT.md is empty - skipping run. Add checklist items to enable." }
    (r, fs1, [r], [r])
  else
    match o with
    | .notFound e =>
      let r := { result0 with
        status := "error",
        error := "claude CLI not found. Install Claude Code: https://claude.ai/code",
        duration_seconds := e }
      (r, fs1, [r], [r])
    | .fault msg e =>
      let r := { result0 with
        status := "error", error := msg, duration_seconds := e }
      (r, fs1, [r], [r])
    | .completed so se e =>
      let oe := invoke_claude_output so se
      let output := oe.1
      let err := oe.2
      let status :=
        if err ≠ "" ∧ output = "" then "error"
        else if hasSubstr output "HEARTBEAT_OK" then "ok"
        else "alert"
      let r := { result0 with
        status := status, output := output, error := err,
        duration_seconds := e }
      (r, fs1, [r], [r])

/-- The classification as the specification words it (spec §4.1 step 5):
over the CAPTURED (raw, untrimmed) stdout/stderr. Stated only to be compared
with the code's classification, which runs on the trimmed values. -/
def claimed_status_of_captured (stdoutRaw stderrRaw : String) : String :=
  if stderrRaw ≠ "" ∧ stdoutRaw = "" then "error"
  else if hasSubstr (pyStrip stdoutRaw) "HEARTBEAT_OK" then "ok"
  else "alert"

/-- Stand-in for `json.loads` restricted to the two line contents used in the
`tail` counterexample: `json.loads "1"` succeeds (yielding the integer 1) and
`json.loads "x"` raises `JSONDecodeError` (yielding `none`). -/
def sampleDecode (s : String) : Option Nat :=
  if s = "1" then some 1 else none

/-! ## Theorems -/

/-- C9: with logging disabled, `Logger.log` neither creates nor modifies the
log file: the file state is returned unchanged for every result. -/
theorem logger_log_disabled_is_noop (cfg : TinManConfig)
    (file : Option (List String)) (entry : String)
    (h : cfg.log_heartbeats = false) :
    logger_log cfg file entry = file := by
  unfold logger_log
  rw [h]
  simp

/-- Witness for C9 at a concrete disabled config, existing file and entry. -/
theorem logger_log_disabled_is_noop_witness :
    ({ log_heartbeats := false } : TinManConfig).log_heartbeats = false ∧
    logger_log { log_heartbeats := false } (some ["old line"]) "new line" =
      some ["old line"] :=
  ⟨rfl, logger_log_disabled_is_noop { log_heartbeats := false }
    (some ["old line"]) "new line" rfl⟩

/-- C10: constructing a `HeartbeatRunner` (which constructs the
`HeartbeatLogger`) creates the parent directory of the configured log path —
even when logging is disabled, since the constructor never consults
`log_heartbeats` — and changes nothing else: files are untouched and the
directory set gains at most that one parent. -/
theorem runner_init_creates_log_parent_only (home : String)
    (cfg : TinManConfig) (fs : FS) :
    (HeartbeatRunner_init home cfg fs).files = fs.files ∧
    (∀ d, d ∈ (HeartbeatRunner_init home cfg fs).dirs ↔
      (d ∈ fs.dirs ∨ d = dirname (expanduser home cfg.log_file))) ∧
    (∀ b, HeartbeatRunner_init home { cfg with log_heartbeats := b } fs =
      HeartbeatRunner_init home cfg fs) := by
  refine ⟨rfl, ?_, fun b => rfl⟩
  intro d
  unfold HeartbeatRunner_init HeartbeatLogger_init addDir
  by_cases h : fs.dirs.contains (dirname (expanduser home cfg.log_file))
  · rw [if_pos h]
    simp only [List.contains_eq_any_beq, List.any_eq_true, beq_iff_eq] at h
    obtain ⟨x, hx, rfl⟩ := h
    constructor
    · exact fun hd => Or.inl hd
    · rintro (hd | rfl)
      · exact hd
      · exact hx
  · rw [if_neg h]
    simp [List.mem_append]

/-- If no pair in `l` has key `p`, appending `(p, c)` makes `find?` hit it. -/
theorem find?_key_append (l : List (String × String)) (p c : String)
    (h : l.find? (fun kv => kv.1 == p) = none) :
    (l ++ [(p, c)]).find? (fun kv => kv.1 == p) = some (p, c) := by
  induction l with
  | nil => simp [List.find?]
  | cons kv t ih =>
    cases hkv : (kv.1 == p) with
    | true =>
      rw [List.find?_cons_of_pos _ (by simp [hkv])] at h
      cases h
    | false =>
      rw [List.find?_cons_of_neg _ (by simp [hkv])] at h
      rw [List.cons_append, List.find?_cons_of_neg _ (by simp [hkv])]
      exact ih h

/-- Appending a file for a path that was absent makes lookup find it. -/
theorem lookupFile_append_self (fs : FS) (p c : String) (ds : List String)
    (h : lookupFile fs p = none) :
    lookupFile ⟨ds, fs.files ++ [(p, c)]⟩ p = some c := by
  unfold lookupFile at h ⊢
  rw [Option.map_eq_none'] at h
  show Option.map (fun kv => kv.2)
    ((fs.files ++ [(p, c)]).find? (fun kv => kv.1 == p)) = some c
  rw [find?_key_append fs.files p c h]
  rfl

/-- C6: `ensure_heartbeat_md` is idempotent. If the resolved checklist file
exists (with any contents) the call leaves the filesystem untouched and
returns the resolved path; if it is missing, the call writes exactly the
built-in default template at that path (creating the parent directory), and
a second call changes nothing. -/
theorem ensure_heartbeat_md_idempotent (home cwd : String)
    (cfg : TinManConfig) (fs : FS) :
    (∀ c, lookupFile fs (resolve_heartbeat_path home cwd cfg) = some c →
      ensure_heartbeat_md home cwd cfg fs =
        (resolve_heartbeat_path home cwd cfg, fs)) ∧
    (lookupFile fs (resolve_heartbeat_path home cwd cfg) = none →
      (ensure_heartbeat_md home cwd cfg fs).2.files =
        fs.files ++ [(resolve_heartbeat_path home cwd cfg, DEFAULT_HEARTBEAT_MD)]) ∧
    ensure_heartbeat_md home cwd cfg (ensure_heartbeat_md home cwd cfg fs).2 =
      ensure_heartbeat_md home cwd cfg fs := by
  refine ⟨?_, ?_, ?_⟩
  · intro c hc
    simp [ensure_heartbeat_md, hc]
  · intro hc
    simp [ensure_heartbeat_md, hc]
  · rcases hl : lookupFile fs (resolve_heartbeat_path home cwd cfg) with _ | c
    · have h2 := lookupFile_append_self fs (resolve_heartbeat_path home cwd cfg)
        DEFAULT_HEARTBEAT_MD
        (addDir fs.dirs (dirname (resolve_heartbeat_path home cwd cfg))) hl
      simp [ensure_heartbeat_md, hl, h2]
    · simp [ensure_heartbeat_md, hl]

/-- Witness for C6 at a concrete pre-existing custom-content checklist. -/
theorem ensure_heartbeat_md_idempotent_witness :
    lookupFile ⟨[], [("/c/HEARTBEAT.md", "custom")]⟩ "/c/HEARTBEAT.md" =
      some "custom" ∧
    ensure_heartbeat_md "/h" "/c" {} ⟨[], [("/c/HEARTBEAT.md", "custom")]⟩ =
      ("/c/HEARTBEAT.md", ⟨[], [("/c/HEARTBEAT.md", "custom")]⟩) :=
  ⟨by decide,
    (ensure_heartbeat_md_idempotent "/h" "/c" {}
      ⟨[], [("/c/HEARTBEAT.md", "custom")]⟩).1 "custom" (by decide)⟩

/-- For a positive cap, rotation is exactly "keep the last `m` lines". -/
theorem rotate_eq_drop (m : Nat) (hm : 1 ≤ m) (xs : List String) :
    rotate_if_needed m xs = xs.drop (xs.length - m) := by
  unfold rotate_if_needed pySliceLast
  by_cases h : xs.length > m
  · rw [if_pos h, if_neg (by omega)]
  · rw [if_neg h, Nat.sub_eq_zero_of_le (by omega), List.drop_zero]

/-- Keeping the last `m` elements, appending, and keeping the last `m`
again is the same as appending first and keeping the last `m` once. -/
theorem drop_last_reappend (m : Nat) (z ys : List α) :
    (z.drop (z.length - m) ++ ys).drop
        ((z.drop (z.length - m) ++ ys).length - m) =
      (z ++ ys).drop ((z ++ ys).length - m) := by
  rcases le_or_lt z.length m with h | h
  · rw [Nat.sub_eq_zero_of_le h, List.drop_zero]
  · rw [List.drop_append_eq_append_drop, List.drop_drop,
      List.drop_append_eq_append_drop]
    have e1 : z.length - m + ((z.drop (z.length - m) ++ ys).length - m) =
        (z ++ ys).length - m := by
      simp only [List.length_append, List.length_drop]
      omega
    have e2 : ((z.drop (z.length - m) ++ ys).length - m) -
        (z.drop (z.length - m)).length = ((z ++ ys).length - m) - z.length := by
      simp only [List.length_append, List.length_drop]
      omega
    rw [e1, e2]

/-- Folding enabled `log` calls from a state already within the cap keeps
exactly the last `max_log_lines` of everything appended so far. -/
theorem logger_logs_from_some (cfg : TinManConfig)
    (hEn : cfg.log_heartbeats = true) (hm : 1 ≤ cfg.max_log_lines) :
    ∀ (rs cur : List String), cur.length ≤ cfg.max_log_lines →
    logger_logs cfg (some cur) rs =
      some ((cur ++ rs).drop ((cur ++ rs).length - cfg.max_log_lines)) := by
  intro rs
  induction rs with
  | nil =>
    intro cur hc
    simp only [logger_logs, List.foldl_nil, List.append_nil]
    rw [Nat.sub_eq_zero_of_le hc, List.drop_zero]
  | cons r rest ih =>
    intro cur hc
    have hstep : logger_log cfg (some cur) r =
        some ((cur ++ [r]).drop ((cur ++ [r]).length - cfg.max_log_lines)) := by
      unfold logger_log
      rw [hEn]
      simp only [Option.getD_some]
      rw [if_neg (by simp), rotate_eq_drop _ hm]
    have hlen : ((cur ++ [r]).drop
        ((cur ++ [r]).length - cfg.max_log_lines)).length ≤ cfg.max_log_lines := by
      rw [List.length_drop]
      omega
    calc logger_logs cfg (some cur) (r :: rest)
        = logger_logs cfg (logger_log cfg (some cur) r) rest := by
          simp [logger_logs, List.foldl_cons]
      _ = logger_logs cfg (some ((cur ++ [r]).drop
            ((cur ++ [r]).length - cfg.max_log_lines))) rest := by rw [hstep]
      _ = some ((cur ++ [r] ++ rest).drop
            ((cur ++ [r] ++ rest).length - cfg.max_log_lines)) := by
          rw [ih _ hlen, drop_last_reappend]
      _ = some ((cur ++ r :: rest).drop
            ((cur ++ r :: rest).length - cfg.max_log_lines)) := by
          rw [List.append_assoc, List.singleton_append]

/-- C3: with logging enabled and a positive cap `m`, after any non-empty
sequence of `k` `Logger.log` calls starting from no file, the log file holds
exactly `min k m` lines, and they are the most recently appended `min k m`
entries in append order (oldest first), i.e. `rs.drop (k - m)`. -/
theorem logger_rotation_keeps_last_m (cfg : TinManConfig) (rs : List String)
    (hEn : cfg.log_heartbeats = true) (hm : 1 ≤ cfg.max_log_lines)
    (hne : rs ≠ []) :
    logger_logs cfg none rs =
      some (rs.drop (rs.length - cfg.max_log_lines)) ∧
    (rs.drop (rs.length - cfg.max_log_lines)).length =
      min rs.length cfg.max_log_lines := by
  constructor
  · cases rs with
    | nil => exact absurd rfl hne
    | cons r rest =>
      have e0 : logger_log cfg none r = logger_log cfg (some []) r := by
        unfold logger_log
        rw [hEn]
        simp
      have h1 := logger_logs_from_some cfg hEn hm (r :: rest) [] (by simp)
      calc logger_logs cfg none (r :: rest)
          = logger_logs cfg (logger_log cfg none r) rest := by
            simp [logger_logs, List.foldl_cons]
        _ = logger_logs cfg (logger_log cfg (some []) r) rest := by rw [e0]
        _ = logger_logs cfg (some []) (r :: rest) := by
            simp [logger_logs, List.foldl_cons]
        _ = some ((r :: rest).drop
              ((r :: rest).length - cfg.max_log_lines)) := by
            rw [h1, List.nil_append]
  · rw [List.length_drop]
    omega

/-- Witness for C3: three appends with cap 2 keep the last two in order. -/
theorem logger_rotation_keeps_last_m_witness :
    ({ max_log_lines := 2 } : TinManConfig).log_heartbeats = true ∧
    1 ≤ ({ max_log_lines := 2 } : TinManConfig).max_log_lines ∧
    (["a", "b", "c"] : List String) ≠ [] ∧
    logger_logs { max_log_lines := 2 } none ["a", "b", "c"] =
      some ["b", "c"] :=
  ⟨rfl, by decide, by decide,
    (logger_rotation_keeps_last_m { max_log_lines := 2 } ["a", "b", "c"]
      rfl (by decide) (by decide)).1⟩

/-- The `tail` accumulation loop collects exactly the decodable lines, in
order, behind the initial accumulator. -/
theorem tail_foldl_eq {α : Type} (decode : String → Option α) :
    ∀ (lines : List String) (init : List α),
    lines.foldl (tail_step decode) init =
    init ++ lines.filterMap (fun line =>
      if pyStrip line = "" then none else decode (pyStrip line)) := by
  intro lines
  induction lines with
  | nil => intro init; simp
  | cons x xs ih =>
    intro init
    rw [List.foldl_cons, List.filterMap_cons]
    by_cases hx : pyStrip x = ""
    · have h1 : tail_step decode init x = init := by simp [tail_step, hx]
      rw [h1, ih]
      simp [hx]
    · cases hd : decode (pyStrip x) with
      | some e =>
        have h1 : tail_step decode init x = init ++ [e] := by
          simp [tail_step, hx, hd]
        rw [h1, ih]
        simp [hx, hd]
      | none =>
        have h1 : tail_step decode init x = init := by
          simp [tail_step, hx, hd]
        rw [h1, ih]
        simp [hx, hd]

/-- C4 (amended): `tail n` returns the empty sequence on a missing file and
otherwise returns exactly the successfully decoded entries among the LAST `n`
LINES of the file, oldest first; malformed and blank lines in that window are
skipped without raising, but they do occupy window slots, so at most `n`
entries come back. -/
theorem tail_decodes_last_n_window {α : Type} (decode : String → Option α)
    (n : Nat) (lines : List String) (hn : 1 ≤ n) :
    tail decode n none = [] ∧
    tail decode n (some lines) =
      (pySliceLast n lines).filterMap (fun line =>
        if pyStrip line = "" then none else decode (pyStrip line)) ∧
    (tail decode n (some lines)).length ≤ n := by
  have ht : tail decode n (some lines) =
      (pySliceLast n lines).filterMap (fun line =>
        if pyStrip line = "" then none else decode (pyStrip line)) := by
    show (pySliceLast n lines).foldl (tail_step decode) [] = _
    rw [tail_foldl_eq, List.nil_append]
  refine ⟨rfl, ht, ?_⟩
  rw [ht]
  have h1 := List.length_filterMap_le (fun line =>
    if pyStrip line = "" then none else decode (pyStrip line)) (pySliceLast n lines)
  have h2 : (pySliceLast n lines).length ≤ lines.length := by
    unfold pySliceLast
    rw [if_neg (by omega), List.length_drop]
    omega
  have h3 : (pySliceLast n lines).length ≤ n := by
    unfold pySliceLast
    rw [if_neg (by omega), List.length_drop]
    rcases le_or_lt lines.length n with h | h
    · omega
    · omega
  omega

/-- Counterexample for C4 as stated: the file line `1` decodes
(`json.loads "1" = 1`) and the line `x` is malformed (`json.loads` raises),
yet `tail 1` returns nothing rather than the last one successfully decoded
entry `[1]` — the malformed final line consumed the whole window. -/
theorem tail_malformed_counted_cex :
    tail sampleDecode 1 (some ["1", "x"]) = [] ∧ ([] : List Nat) ≠ [1] := by
  decide

/-- Witness for C4 (amended) at a concrete file with a malformed first line. -/
theorem tail_decodes_last_n_window_witness :
    (1 : Nat) ≤ 2 ∧
    tail sampleDecode 2 (some ["x", "1"]) =
      (pySliceLast 2 ["x", "1"]).filterMap (fun line =>
        if pyStrip line = "" then none else sampleDecode (pyStrip line)) ∧
    (tail sampleDecode 2 (some ["x", "1"])).length ≤ 2 :=
  ⟨by decide,
    (tail_decodes_last_n_window sampleDecode 2 ["x", "1"] (by decide)).2.1,
    (tail_decodes_last_n_window sampleDecode 2 ["x", "1"] (by decide)).2.2⟩

/-- Counterexample for C1 as stated: a cycle whose invocation completes with
captured stdout `" "` (whitespace only, hence non-empty) and captured stderr
`"boom"`. The claim's classification over the CAPTURED streams yields
`alert`, but the code classifies over the trimmed streams and yields
`error`. -/
theorem run_beat_captured_classification_cex :
    (run_beat "/h" "/c" {} "T" ⟨[], [("/c/HEARTBEAT.md", "check stuff")]⟩
      (.completed " " "boom" 1)).1.status = "error" ∧
    claimed_status_of_captured " " "boom" = "alert" ∧
    ("error" : String) ≠ "alert" := by
  decide

/-- C1 (amended): on a completed invocation in a non-skipped cycle, `run_beat`
classifies over the TRIMMED stdout/stderr — `error` iff trimmed stderr is
non-empty and trimmed stdout is empty, else `ok` iff the trimmed stdout
contains `HEARTBEAT_OK`, else `alert` — and stores the trimmed stdout as
`output`, the trimmed stderr as `error`, and the elapsed time as
`duration_seconds`. -/
theorem run_beat_classifies_trimmed_output (home cwd : String)
    (cfg : TinManConfig) (ts : String) (fs : FS) (so se : String) (e : Rat)
    (h : pyStrip (read_checklist home cwd cfg fs) ≠ "") :
    (run_beat home cwd cfg ts fs (.completed so se e)).1.output = pyStrip so ∧
    (run_beat home cwd cfg ts fs (.completed so se e)).1.error = pyStrip se ∧
    (run_beat home cwd cfg ts fs (.completed so se e)).1.status =
      (if pyStrip se ≠ "" ∧ pyStrip so = "" then "error"
       else if hasSubstr (pyStrip so) "HEARTBEAT_OK" then "ok"
       else "alert") ∧
    (run_beat home cwd cfg ts fs (.completed so se e)).1.duration_seconds = e := by
  unfold run_beat
  dsimp only
  rw [if_neg h]
  exact ⟨rfl, rfl, rfl, rfl⟩

/-- Witness for C1 (amended): concrete completed cycle with untrimmed
marker output and whitespace stderr. -/
theorem run_beat_classifies_trimmed_output_witness :
    pyStrip (read_checklist "/h" "/c" {}
      ⟨[], [("/c/HEARTBEAT.md", "check stuff")]⟩) ≠ "" ∧
    ((run_beat "/h" "/c" {} "T" ⟨[], [("/c/HEARTBEAT.md", "check stuff")]⟩
      (.completed " HEARTBEAT_OK " " " 2)).1.output = pyStrip " HEARTBEAT_OK " ∧
    (run_beat "/h" "/c" {} "T" ⟨[], [("/c/HEARTBEAT.md", "check stuff")]⟩
      (.completed " HEARTBEAT_OK " " " 2)).1.error = pyStrip " " ∧
    (run_beat "/h" "/c" {} "T" ⟨[], [("/c/HEARTBEAT.md", "check stuff")]⟩
      (.completed " HEARTBEAT_OK " " " 2)).1.status =
      (if pyStrip " " ≠ "" ∧ pyStrip " HEARTBEAT_OK " = "" then "error"
       else if hasSubstr (pyStrip " HEARTBEAT_OK ") "HEARTBEAT_OK" then "ok"
       else "alert") ∧
    (run_beat "/h" "/c" {} "T" ⟨[], [("/c/HEARTBEAT.md", "check stuff")]⟩
      (.completed " HEARTBEAT_OK " " " 2)).1.duration_seconds = 2) :=
  ⟨by decide,
    run_beat_classifies_trimmed_output "/h" "/c" {} "T"
      ⟨[], [("/c/HEARTBEAT.md", "check stuff")]⟩ " HEARTBEAT_OK " " " 2
      (by decide)⟩

/-- C2: `run_beat` is total (every path returns a `Result`), every exit path
passes the result to `Logger.log` exactly once and to the sink fan-out
(`_emit`) exactly once — the very result it returns — and any exception
raised during invocation is converted to an `error` result carrying the
exception text and the time elapsed before the fault. -/
theorem run_beat_total_logs_emits_once :
    (∀ (home cwd : String) (cfg : TinManConfig) (ts : String) (fs : FS)
       (o : InvokeOutcome),
      (run_beat home cwd cfg ts fs o).2.2.1 =
        [(run_beat home cwd cfg ts fs o).1] ∧
      (run_beat home cwd cfg ts fs o).2.2.2 =
        [(run_beat home cwd cfg ts fs o).1]) ∧
    (∀ (home cwd : String) (cfg : TinManConfig) (ts : String) (fs : FS)
       (msg : String) (e : Rat),
      pyStrip (read_checklist home cwd cfg fs) ≠ "" →
      (run_beat home cwd cfg ts fs (.fault msg e)).1.status = "error" ∧
      (run_beat home cwd cfg ts fs (.fault msg e)).1.error = msg ∧
      (run_beat home cwd cfg ts fs (.fault msg e)).1.duration_seconds = e) := by
  constructor
  · intro home cwd cfg ts fs o
    unfold run_beat
    dsimp only
    split
    · exact ⟨rfl, rfl⟩
    · cases o <;> exact ⟨rfl, rfl⟩
  · intro home cwd cfg ts fs msg e h
    unfold run_beat
    dsimp only
    rw [if_neg h]
    exact ⟨rfl, rfl, rfl⟩

/-- Witness for C2 at a concrete faulting invocation (e.g. the 120-second
timeout raised as an exception). -/
theorem run_beat_total_logs_emits_once_witness :
    pyStrip (read_checklist "/h" "/c" {}
      ⟨[], [("/c/HEARTBEAT.md", "check disk")]⟩) ≠ "" ∧
    ((run_beat "/h" "/c" {} "T" ⟨[], [("/c/HEARTBEAT.md", "check disk")]⟩
      (.fault "Command timed out after 120 seconds" 120)).1.status = "error" ∧
    (run_beat "/h" "/c" {} "T" ⟨[], [("/c/HEARTBEAT.md", "check disk")]⟩
      (.fault "Command timed out after 120 seconds" 120)).1.error =
        "Command timed out after 120 seconds" ∧
    (run_beat "/h" "/c" {} "T" ⟨[], [("/c/HEARTBEAT.md", "check disk")]⟩
      (.fault "Command timed out after 120 seconds" 120)).1.duration_seconds =
        120) :=
  ⟨by decide,
    run_beat_total_logs_emits_once.2 "/h" "/c" {} "T"
      ⟨[], [("/c/HEARTBEAT.md", "check disk")]⟩
      "Command timed out after 120 seconds" 120 (by decide)⟩

/-- C5: the result `run_beat` returns — which is exactly the one it passes to
`Logger.log` for persistence and to the notification sinks — always has one
of the four final statuses; the transient `unknown` never escapes. -/
theorem run_beat_status_never_unknown (home cwd : String)
    (cfg : TinManConfig) (ts : String) (fs : FS) (o : InvokeOutcome) :
    ((run_beat home cwd cfg ts fs o).1.status = "ok" ∨
     (run_beat home cwd cfg ts fs o).1.status = "alert" ∨
     (run_beat home cwd cfg ts fs o).1.status = "error" ∨
     (run_beat home cwd cfg ts fs o).1.status = "skipped_empty") ∧
    (run_beat home cwd cfg ts fs o).1.status ≠ "unknown" ∧
    (run_beat home cwd cfg ts fs o).2.2.1 =
      [(run_beat home cwd cfg ts fs o).1] ∧
    (run_beat home cwd cfg ts fs o).2.2.2 =
      [(run_beat home cwd cfg ts fs o).1] := by
  unfold run_beat
  dsimp only
  split
  · exact ⟨Or.inr (Or.inr (Or.inr rfl)),
      (by decide : ("skipped_empty" : String) ≠ "unknown"), rfl, rfl⟩
  · cases o with
    | notFound e =>
      exact ⟨Or.inr (Or.inr (Or.inl rfl)),
        (by decide : ("error" : String) ≠ "unknown"), rfl, rfl⟩
    | fault msg e =>
      exact ⟨Or.inr (Or.inr (Or.inl rfl)),
        (by decide : ("error" : String) ≠ "unknown"), rfl, rfl⟩
    | completed so se e =>
      refine ⟨?_, ?_, rfl, rfl⟩
      · dsimp only
        split
        · exact Or.inr (Or.inr (Or.inl rfl))
        · split
          · exact Or.inl rfl
          · exact Or.inr (Or.inl rfl)
      · dsimp only
        split
        · exact (by decide : ("error" : String) ≠ "unknown")
        · split
          · exact (by decide : ("ok" : String) ≠ "unknown")
          · exact (by decide : ("alert" : String) ≠ "unknown")

/-- Counterexample for C7 as stated: when the tool lookup fails, the code
sets `duration_seconds` to `round(time.time() - start, 2)` — the elapsed time
of the failed lookup — not to the constant 0; a cycle whose lookup consumed
1 second of wall clock produces duration 1. -/
theorem run_beat_notfound_duration_cex :
    (run_beat "/h" "/c" {} "T" ⟨[], [("/c/HEARTBEAT.md", "trivia")]⟩
      (.notFound 1)).1.status = "error" ∧
    (run_beat "/h" "/c" {} "T" ⟨[], [("/c/HEARTBEAT.md", "trivia")]⟩
      (.notFound 1)).1.duration_seconds = 1 ∧
    (1 : Rat) ≠ 0 := by
  decide

/-- C7 (amended): if the executable cannot be located, `run_beat` returns an
`error` result whose message mentions installation, with empty output, no
subprocess invocation attempted (the `notFound` outcome precedes
`subprocess.run`), and `duration_seconds` equal to the rounded wall-clock
time of the failed lookup (0 whenever that rounds to 0, but computed, not
fixed). -/
theorem run_beat_notfound_error_result (home cwd : String)
    (cfg : TinManConfig) (ts : String) (fs : FS) (e : Rat)
    (h : pyStrip (read_checklist home cwd cfg fs) ≠ "") :
    (run_beat home cwd cfg ts fs (.notFound e)).1.status = "error" ∧
    (run_beat home cwd cfg ts fs (.notFound e)).1.error =
      "claude CLI not found. Install Claude Code: https://claude.ai/code" ∧
    hasSubstr (run_beat home cwd cfg ts fs (.notFound e)).1.error
      "Install" = true ∧
    (run_beat home cwd cfg ts fs (.notFound e)).1.duration_seconds = e ∧
    (run_beat home cwd cfg ts fs (.notFound e)).1.output = "" := by
  unfold run_beat
  dsimp only
  rw [if_neg h]
  exact ⟨rfl, rfl,
    (by decide : hasSubstr
      "claude CLI not found. Install Claude Code: https://claude.ai/code"
      "Install" = true), rfl, rfl⟩

/-- Witness for C7 (amended) at a lookup whose elapsed time rounds to 0. -/
theorem run_beat_notfound_error_result_witness :
    pyStrip (read_checklist "/h" "/c" {}
      ⟨[], [("/c/HEARTBEAT.md", "check repo")]⟩) ≠ "" ∧
    ((run_beat "/h" "/c" {} "T" ⟨[], [("/c/HEARTBEAT.md", "check repo")]⟩
      (.notFound 0)).1.status = "error" ∧
    (run_beat "/h" "/c" {} "T" ⟨[], [("/c/HEARTBEAT.md", "check repo")]⟩
      (.notFound 0)).1.error =
        "claude CLI not found. Install Claude Code: https://claude.ai/code" ∧
    hasSubstr (run_beat "/h" "/c" {} "T"
      ⟨[], [("/c/HEARTBEAT.md", "check repo")]⟩ (.notFound 0)).1.error
      "Install" = true ∧
    (run_beat "/h" "/c" {} "T" ⟨[], [("/c/HEARTBEAT.md", "check repo")]⟩
      (.notFound 0)).1.duration_seconds = 0 ∧
    (run_beat "/h" "/c" {} "T" ⟨[], [("/c/HEARTBEAT.md", "check repo")]⟩
      (.notFound 0)).1.output = "") :=
  ⟨by decide,
    run_beat_notfound_error_result "/h" "/c" {} "T"
      ⟨[], [("/c/HEARTBEAT.md", "check repo")]⟩ 0 (by decide)⟩

/-- The advisory list is empty exactly when all three safety rails are
inactive. -/
theorem safety_mode_eq_nil_iff (cfg : TinManConfig) :
    safety_mode cfg = [] ↔
      (cfg.notify_only = false ∧ cfg.max_actions_per_run ≠ 0 ∧
       cfg.require_confirmation = false) := by
  unfold safety_mode
  cases h1 : cfg.notify_only <;> cases h3 : cfg.require_confirmation <;>
    by_cases h2 : cfg.max_actions_per_run = 0 <;> simp [h1, h2, h3]

/-- A non-empty advisory list yields a non-empty banner (it starts with the
header line). -/
theorem safety_prefix_ne_of_mode (cfg : TinManConfig)
    (h : safety_mode cfg ≠ []) : safety_prefix cfg ≠ "" := by
  unfold safety_prefix
  rw [if_neg h]
  intro hcontra
  have hlen := congrArg String.length hcontra
  rw [String.length_append] at hlen
  have hl : ("=== TinMan Safety Rules (enforced by config) ===\n" :
      String).length = 49 := by decide
  have h0 : ("" : String).length = 0 := rfl
  rw [hl, h0] at hlen
  omega

/-- C8: the safety banner is the empty string exactly when `notify_only` is
false, `max_actions_per_run` is nonzero and `require_confirmation` is false;
otherwise it is the fixed header line followed by one bulleted advisory line
per active flag; and the prompt handed to the external tool is always
banner + `"\n\n---\n\n"` + raw checklist text. -/
theorem safety_prefix_empty_iff_and_prompt (cfg : TinManConfig)
    (checklist : String) :
    ( safety_prefix cfg = "" ↔
      (cfg.notify_only = false ∧ cfg.max_actions_per_run ≠ 0 ∧
       cfg.require_confirmation = false)) ∧
    invoke_prompt cfg checklist =
      safety_prefix cfg ++ "\n\n---\n\n" ++ checklist ∧
    (safety_mode cfg).length =
      ((if cfg.notify_only then 1 else 0) +
       (if cfg.max_actions_per_run = 0 then 1 else 0) +
       (if cfg.require_confirmation then 1 else 0)) ∧
    (safety_mode cfg ≠ [] →
      safety_prefix cfg =
        "=== TinMan Safety Rules (enforced by config) ===\n" ++
          py_join "\n" ((safety_mode cfg).map (fun m => "- " ++ m))) := by
  refine ⟨?_, rfl, ?_, ?_⟩
  · constructor
    · intro hp
      refine (safety_mode_eq_nil_iff cfg).1 ?_
      by_contra hmode
      exact safety_prefix_ne_of_mode cfg hmode hp
    · intro hflags
      unfold safety_prefix
      rw [if_pos ((safety_mode_eq_nil_iff cfg).2 hflags)]
  · unfold safety_mode
    cases h1 : cfg.notify_only <;> cases h3 : cfg.require_confirmation <;>
      by_cases h2 : cfg.max_actions_per_run = 0 <;> simp [h1, h2, h3]
  · intro hmode
    unfold safety_prefix
    rw [if_neg hmode]

/-- Witness for C8 at the default (sane) config, where all three rails are
active and the banner carries three bulleted advisories. -/
theorem safety_prefix_empty_iff_and_prompt_witness :
    safety_mode ({} : TinManConfig) ≠ [] ∧
    safety_prefix ({} : TinManConfig) =
      "=== TinMan Safety Rules (enforced by config) ===\n" ++
        py_join "\n" ((safety_mode ({} : TinManConfig)).map
          (fun m => "- " ++ m)) :=
  ⟨by decide,
    (safety_prefix_empty_iff_and_prompt ({} : TinManConfig) "x").2.2.2
      (by decide)⟩

end Tinman
